import Mathlib

/-!
# Verification of mtv-seat-monitor (`src/seat_monitor_app.js`)

A shallow embedding of the seat-monitor application.  The program is a
single-file Node.js polling utility: a `SeatMonitor` class with mutable
fields `intervalMinutes`, `intervalMs`, `isRunning`, `timeoutId`,
`previousSoldCount`, a `checkSoldSeats` cycle (fetch, JSON parse, JMESPath
query, delta report, all inside one try/catch), a self-rescheduling
one-shot timer chain (`start`/`scheduleNext`/`stop`), and a CLI argument
parser (`parseArguments`).

The embedding:
* `CycleOutcome` abstracts the result of the fetch + query part of one
  check cycle (the HTTP transport, the JSON parser and the JMESPath
  evaluator are external collaborators; each either yields a sold-seat
  count or throws, and every throw is routed to the single catch block).
* `checkSoldSeats` is the pure body of one cycle: given the timestamp,
  the stored `previousSoldCount` and the outcome, it returns the new
  stored value plus the stdout/stderr lines the cycle prints.
* `SysState`/`Event`/`step` give an event-level operational semantics of
  the timer chain as the Node event loop interleaves `start()`, `stop()`,
  timer firings and check completions.  Timer handles are modelled by
  fresh natural-number ids; `liveTimers` is the set of armed, not yet
  fired/cancelled timers of the runtime, while `timeoutId` is the
  `this.timeoutId` field (which may go stale after a timer fires, exactly
  as in the code, where the fired handle is never cleared).
* `parseArguments`/`parseLoop` embed the CLI scanner.  `process.exit` is
  modelled by the `ParseResult.exited` constructor.  The JavaScript
  numeric interpretation (`isNaN`/`parseFloat`) is modelled by
  `parseDecimal`, covering plain decimal numerals (optional sign, digits,
  optional fraction, surrounding spaces) and rejecting everything else;
  exotic numeric forms (exponents, hex, `Infinity`) are outside the
  model's scope and outside every claim's instances.
-/

namespace SeatMonitorApp

/-- A JavaScript number as the program manipulates them: every numeric
value of this program is an exact decimal (a CLI decimal numeral, or such
a value scaled by 60*1000), so it is represented exactly as a fraction
`num / den` with a power-of-ten denominator, kept unnormalized so that
all operations are kernel-computable.  `toRat` gives its mathematical
value. -/
structure JsNumber where
  num : Int
  den : Nat
deriving DecidableEq

/-- The rational value of a `JsNumber`. -/
def JsNumber.toRat (x : JsNumber) : ℚ := (x.num : ℚ) / (x.den : ℚ)

/-- Embedding of a natural-number literal. -/
def JsNumber.ofNat (n : Nat) : JsNumber := ⟨n, 1⟩

/-- Multiplication of JavaScript numbers (exact on this program's
values). -/
def JsNumber.mul (x y : JsNumber) : JsNumber := ⟨x.num * y.num, x.den * y.den⟩

/-- The constant `DEFAULT_INTERVAL` from the source: 5 minutes. -/
def DEFAULT_INTERVAL : JsNumber := .ofNat 5

/-- The fixed endpoint URL embedded in the source. -/
def API_URL : String :=
  "https://booking-service.services.ditix.app/api/public/v1.0/event/prices/?id=3249d4cb-c92b-4c68-bbb3-6a6213b7cbaf&publicKey=e16be350-4367-48d7-861d-00f4645b3cba"

/-- The fixed JMESPath expression embedded in the source. -/
def JMESPATH_EXPRESSION : String := "length(seats[?@[3] == `SOLD`])"

/-- Outcome of the fetch-parse-query part of one check cycle.  The four
error constructors correspond to the rejections produced inside
`fetchData` (request error, 10s timeout, JSON parse failure) and to an
exception thrown by the JMESPath evaluator; `success` carries the
non-negative count the evaluator returns on the success path. -/
inductive CycleOutcome where
  | requestError (msg : String)
  | requestTimeout
  | parseError (msg : String)
  | queryError (msg : String)
  | success (soldCount : Nat)
deriving DecidableEq

/-- The message of the error that reaches the catch block of
`checkSoldSeats`, if any: `fetchData` wraps request errors as
`Request failed: ...`, timeouts as `Request timeout` and parse errors as
`Failed to parse JSON: ...`; a query-evaluator exception arrives as-is. -/
def CycleOutcome.errorMessage : CycleOutcome → Option String
  | .requestError m => some ("Request failed: " ++ m)
  | .requestTimeout => some "Request timeout"
  | .parseError m => some ("Failed to parse JSON: " ++ m)
  | .queryError m => some m
  | .success _ => none

/-- The delta annotation of `checkSoldSeats` (line 61 of the source):
`change > 0 ? "(+change)" : change < 0 ? "(change)" : "(no change)"`. -/
def changeText (change : Int) : String :=
  if change > 0 then "(+" ++ toString change ++ ")"
  else if change < 0 then "(" ++ toString change ++ ")"
  else "(no change)"

/-- Result of one run of `checkSoldSeats`: the new `previousSoldCount`
field together with the stdout and stderr lines printed by the cycle. -/
structure CycleResult where
  previousSoldCount : Option Nat
  stdout : List String
  stderr : List String
deriving DecidableEq

/-- The `[ts] Checking sold seats...` line printed at the top of every
cycle. -/
def checkingLine (ts : String) : String := "[" ++ ts ++ "] Checking sold seats..."

/-- The `Sold seats` report line: with a stored previous value it carries
the delta annotation, without one it is the bare metric (lines 59-65). -/
def soldLine (ts : String) (prev : Option Nat) (soldCount : Nat) : String :=
  match prev with
  | some p =>
      "[" ++ ts ++ "] Sold seats: " ++ toString soldCount ++ " "
        ++ changeText ((soldCount : Int) - (p : Int))
  | none => "[" ++ ts ++ "] Sold seats: " ++ toString soldCount

/-- One check cycle (`checkSoldSeats`, lines 50-72).  On success the
report line is printed and `previousSoldCount` is set to the metric; on
any error the catch block prints `[ts] Error: msg` to stderr and leaves
`previousSoldCount` untouched.  The function is total: no outcome makes
it propagate an error. -/
def checkSoldSeats (ts : String) (prev : Option Nat) (o : CycleOutcome) : CycleResult :=
  match o with
  | .success n =>
      { previousSoldCount := some n
        stdout := [checkingLine ts, soldLine ts prev n]
        stderr := [] }
  | e =>
      { previousSoldCount := prev
        stdout := [checkingLine ts]
        stderr := ["[" ++ ts ++ "] Error: " ++ e.errorMessage.getD ""] }

/-- Startup banner printed by `start()` (lines 81-85). -/
def startBanner (intervalMinutes : JsNumber) : List String :=
  ["🎫 MTV Braunschweig - Starting ticket monitor...",
   "📊 Monitoring URL: " ++ API_URL,
   "⏱️  Check interval: " ++ toString intervalMinutes.toRat ++ " minute(s)",
   "🔍 JMESPath expression: " ++ JMESPATH_EXPRESSION,
   "⏹️  Press Ctrl+C to stop\n"]

/-- The monitor's state together with the event-loop resources it owns.
`intervalMinutes` … `previousSoldCount` are the five `SeatMonitor`
fields; `inFlight` counts check cycles that have started but not yet
resolved; `liveTimers` lists armed, not yet fired/cancelled timer ids;
`nextId` generates fresh timer ids; `stdout`/`stderr` accumulate console
output. -/
structure SysState where
  intervalMinutes : JsNumber
  intervalMs : JsNumber
  isRunning : Bool
  timeoutId : Option Nat
  previousSoldCount : Option Nat
  inFlight : Nat
  liveTimers : List Nat
  nextId : Nat
  stdout : List String
  stderr : List String
deriving DecidableEq

/-- The `SeatMonitor` constructor (lines 12-18): not running, no timer,
no previous count, `intervalMs = intervalMinutes * 60 * 1000`. -/
def newMonitor (intervalMinutes : JsNumber) : SysState :=
  { intervalMinutes := intervalMinutes
    intervalMs := (intervalMinutes.mul (.ofNat 60)).mul (.ofNat 1000)
    isRunning := false
    timeoutId := none
    previousSoldCount := none
    inFlight := 0
    liveTimers := []
    nextId := 0
    stdout := []
    stderr := [] }

/-- Events of the Node event loop that drive the monitor:
`startCall`/`stopCall` are external invocations, `timerFire t` is the
firing of timer `t`, and `checkComplete ts o` is the resolution of an
in-flight `checkSoldSeats` with timestamp `ts` and outcome `o` (after
which the pending `scheduleNext` continuation runs). -/
inductive Event where
  | startCall
  | stopCall
  | timerFire (t : Nat)
  | checkComplete (ts : String) (o : CycleOutcome)
deriving DecidableEq

/-- One event-loop step.
* `startCall`: lines 74-101.  If already running, only the notice is
  printed.  Otherwise `isRunning` is set, the banner printed, and the
  initial `checkSoldSeats` begins (it resolves at a later
  `checkComplete`, whereupon `scheduleNext` runs).
* `stopCall`: lines 103-114.  Early return when not running; otherwise
  clear `isRunning`, cancel the timer held in `timeoutId` (a no-op on a
  stale, already-fired handle, as with `clearTimeout`), print the notice.
* `timerFire t`: the `setTimeout` callback (lines 93-96) starts a new
  check unconditionally; `timeoutId` keeps the stale handle.
* `checkComplete ts o`: the awaited `checkSoldSeats` resolves with
  outcome `o`; then `scheduleNext` (lines 91-98) arms a fresh one-shot
  timer iff `isRunning` still holds, storing its id in `timeoutId`. -/
def step (s : SysState) : Event → SysState
  | .startCall =>
      if s.isRunning then
        { s with stdout := s.stdout ++ ["Monitor is already running"] }
      else
        { s with isRunning := true
                 stdout := s.stdout ++ startBanner s.intervalMinutes
                 inFlight := s.inFlight + 1 }
  | .stopCall =>
      if s.isRunning then
        match s.timeoutId with
        | some t =>
            { s with isRunning := false
                     timeoutId := none
                     liveTimers := s.liveTimers.erase t
                     stdout := s.stdout ++ ["\n🛑 Monitor stopped"] }
        | none =>
            { s with isRunning := false
                     stdout := s.stdout ++ ["\n🛑 Monitor stopped"] }
      else s
  | .timerFire t =>
      if t ∈ s.liveTimers then
        { s with liveTimers := s.liveTimers.erase t
                 inFlight := s.inFlight + 1 }
      else s
  | .checkComplete ts o =>
      if s.inFlight = 0 then s
      else
        let r := checkSoldSeats ts s.previousSoldCount o
        if s.isRunning then
          { s with inFlight := s.inFlight - 1
                   previousSoldCount := r.previousSoldCount
                   stdout := s.stdout ++ r.stdout
                   stderr := s.stderr ++ r.stderr
                   liveTimers := s.nextId :: s.liveTimers
                   timeoutId := some s.nextId
                   nextId := s.nextId + 1 }
        else
          { s with inFlight := s.inFlight - 1
                   previousSoldCount := r.previousSoldCount
                   stdout := s.stdout ++ r.stdout
                   stderr := s.stderr ++ r.stderr }

/-- Run a sequence of events from a state. -/
def runFrom (s : SysState) : List Event → SysState
  | [] => s
  | e :: es => runFrom (step s e) es

/-- An event is in-discipline when `start()` is not invoked while a check
from a previous run is still in flight (calling `start()` while running
is harmless, it is a logged no-op). -/
def okEvent (s : SysState) : Event → Bool
  | .startCall => s.isRunning || s.inFlight == 0
  | _ => true

/-- A trace is in-discipline when every event in it is. -/
def OkFrom (s : SysState) : List Event → Bool
  | [] => true
  | e :: es => okEvent s e && OkFrom (step s e) es

/-- A trace contains no `start()` invocation. -/
def noStartCall : List Event → Bool
  | [] => true
  | .startCall :: _ => false
  | _ :: es => noStartCall es

/-- Number of check cycles that begin while running a trace. -/
def spawnCount (s : SysState) : List Event → Nat
  | [] => 0
  | e :: es => ((step s e).inFlight - s.inFlight) + spawnCount (step s e) es

/-- Single-chain invariant of the scheduler: the chain owns at most one
token (an in-flight check or a pending timer), every live timer is the
one recorded in `timeoutId`, and a stopped monitor has no live timer. -/
def ChainInv (s : SysState) : Prop :=
  s.inFlight + s.liveTimers.length ≤ 1
  ∧ (∀ t ∈ s.liveTimers, s.timeoutId = some t)
  ∧ (s.isRunning = false → s.liveTimers = [])

instance (s : SysState) : Decidable (ChainInv s) := by
  unfold ChainInv
  infer_instance

/-! ## CLI argument parsing (`parseArguments`, lines 117-145)

The guard on an `--interval` value is `!nextArg || isNaN(nextArg)` then
`parseFloat(nextArg) <= 0`, so both JavaScript numeric interpretations
are embedded: `jsNumber` models `Number(s)` (the basis of `isNaN`): a
whitespace-trimmed full-string parse accepting the empty string (as 0),
signed `Infinity`, decimal numerals with optional fraction and exponent,
and unsigned hex/octal/binary literals; `jsParseFloat` models
`parseFloat(s)`: skip leading whitespace, parse the longest prefix that
is a signed `Infinity` or decimal numeral, otherwise NaN.  Values live
in `JsFloat` (NaN, signed infinities, exact finite decimals); double
rounding is out of scope — values are exact rationals, so overflow and
underflow of extreme exponents (`1e400`, `1e-400`) are not modelled. -/

/-- Numeric value of a list of decimal digits. -/
def digitsVal (cs : List Char) : Nat :=
  cs.foldl (fun n c => 10 * n + (c.toNat - 48)) 0

/-- Numeric value of a list of digits in an arbitrary base. -/
def baseDigitsVal (base : Nat) (val : Char → Nat) (cs : List Char) : Nat :=
  cs.foldl (fun n c => base * n + val c) 0

/-- Hexadecimal digit test. -/
def isHexDigit (c : Char) : Bool :=
  c.isDigit || ('a' ≤ c && c ≤ 'f') || ('A' ≤ c && c ≤ 'F')

/-- Hexadecimal digit value. -/
def hexDigitVal (c : Char) : Nat :=
  if c.isDigit then c.toNat - 48
  else if 'a' ≤ c && c ≤ 'f' then c.toNat - 87
  else c.toNat - 55

/-- Octal digit test. -/
def isOctDigit (c : Char) : Bool := '0' ≤ c && c ≤ '7'

/-- Binary digit test. -/
def isBinDigit (c : Char) : Bool := c = '0' || c = '1'

/-- The ECMAScript WhiteSpace and LineTerminator characters stripped by
`Number()` and skipped by `parseFloat()`: tab, LF, VT, FF, CR, space,
NBSP, Ogham space mark, the U+2000 - U+200A spaces, LS, PS, NNBSP, MMSP,
ideographic space, and BOM. -/
def jsWhitespace (c : Char) : Bool :=
  c = ' ' || c = '\t' || c = '\n' || c = '\r'
    || c.toNat = 0x0b || c.toNat = 0x0c
    || c.toNat = 0xa0 || c.toNat = 0x1680
    || (0x2000 ≤ c.toNat && c.toNat ≤ 0x200a)
    || c.toNat = 0x2028 || c.toNat = 0x2029
    || c.toNat = 0x202f || c.toNat = 0x205f
    || c.toNat = 0x3000 || c.toNat = 0xfeff

/-- Strip leading and trailing JavaScript whitespace. -/
def trimJsWs (cs : List Char) : List Char :=
  ((cs.dropWhile (fun c => jsWhitespace c)).reverse.dropWhile
      (fun c => jsWhitespace c)).reverse

/-- A JavaScript number as `Number()`/`parseFloat()` produce them: NaN, a
signed infinity, or an exact finite decimal. -/
inductive JsFloat where
  | nan
  | posInf
  | negInf
  | finite (x : JsNumber)
deriving DecidableEq

/-- The comparison `x <= 0` as JavaScript evaluates it: false for NaN
(every comparison with NaN is false) and for positive infinity, true for
negative infinity, the numerator's sign for a finite decimal. -/
def JsFloat.le0 : JsFloat → Bool
  | .nan => false
  | .posInf => false
  | .negInf => true
  | .finite x => x.num ≤ 0

/-- The comparison `0 < x` as JavaScript evaluates it: false for NaN. -/
def JsFloat.pos : JsFloat → Bool
  | .nan => false
  | .posInf => true
  | .negInf => false
  | .finite x => 0 < x.num

/-- The exact value of a decimal numeral `sign intDs.fracDs e exp`:
`sign * digits * 10 ^ (exp - fracDs.length)` as an unnormalized
fraction with a power-of-ten denominator. -/
def decimalValue (sign : Int) (intDs fracDs : List Char) (exp : Int) : JsNumber :=
  let digits : Nat := digitsVal (intDs ++ fracDs)
  let e : Int := exp - fracDs.length
  if 0 ≤ e then ⟨sign * digits * (10 : Int) ^ e.toNat, 1⟩
  else ⟨sign * digits, (10 : Nat) ^ (-e).toNat⟩

/-- Parse `digits [. digits] [eE [sign] digits]` from the front of a
character list: the integer digits, fraction digits and exponent, plus
the unconsumed remainder; `none` when no digit occurs before the
exponent.  An incomplete exponent (no digits after `e`) is left
unconsumed, as `parseFloat` does. -/
def parseDecCore (cs : List Char) : Option (List Char × List Char × Int × List Char) :=
  let d1 := cs.takeWhile Char.isDigit
  let r1 := cs.dropWhile Char.isDigit
  let fracRest : List Char × List Char :=
    match r1 with
    | '.' :: rest => (rest.takeWhile Char.isDigit, rest.dropWhile Char.isDigit)
    | _ => ([], r1)
  let d2 := fracRest.1
  let r2 := fracRest.2
  if d1.isEmpty && d2.isEmpty then none
  else
    match r2 with
    | e :: rest =>
        if e = 'e' || e = 'E' then
          let signRest : Int × List Char :=
            match rest with
            | '-' :: r => (-1, r)
            | '+' :: r => (1, r)
            | _ => (1, rest)
          let eds := signRest.2.takeWhile Char.isDigit
          let r3 := signRest.2.dropWhile Char.isDigit
          if eds.isEmpty then some (d1, d2, 0, r2)
          else some (d1, d2, signRest.1 * (digitsVal eds : Int), r3)
        else some (d1, d2, 0, r2)
    | [] => some (d1, d2, 0, [])

/-- The spelling of `Infinity`. -/
def infinityChars : List Char := ['I', 'n', 'f', 'i', 'n', 'i', 't', 'y']

/-- Signed-`Infinity` / decimal parse of a full, already-trimmed,
sign-carrying body (the common tail of the `Number()` grammar). -/
def jsNumberDec (cs : List Char) : JsFloat :=
  let signBody : Int × List Char :=
    match cs with
    | '-' :: rest => ((-1 : Int), rest)
    | '+' :: rest => ((1 : Int), rest)
    | _ => ((1 : Int), cs)
  if signBody.2 = infinityChars then
    if signBody.1 = 1 then .posInf else .negInf
  else
    match parseDecCore signBody.2 with
    | none => .nan
    | some (d1, d2, e, rest) =>
        if rest.isEmpty then .finite (decimalValue signBody.1 d1 d2 e)
        else .nan

/-- Model of `Number(s)`, the conversion behind `isNaN(s)`: trim
whitespace; the empty string is 0; `0x`/`0o`/`0b` literals (no sign) are
unsigned integers; otherwise a signed `Infinity` or a full decimal
numeral with optional fraction and exponent; anything else is NaN. -/
def jsNumber (s : String) : JsFloat :=
  let cs := trimJsWs s.toList
  if cs.isEmpty then .finite ⟨0, 1⟩
  else
    match cs with
    | '0' :: c :: ds =>
        if c = 'x' || c = 'X' then
          if !ds.isEmpty && ds.all isHexDigit then
            .finite ⟨baseDigitsVal 16 hexDigitVal ds, 1⟩
          else .nan
        else if c = 'o' || c = 'O' then
          if !ds.isEmpty && ds.all isOctDigit then
            .finite ⟨baseDigitsVal 8 (fun d => d.toNat - 48) ds, 1⟩
          else .nan
        else if c = 'b' || c = 'B' then
          if !ds.isEmpty && ds.all isBinDigit then
            .finite ⟨baseDigitsVal 2 (fun d => d.toNat - 48) ds, 1⟩
          else .nan
        else jsNumberDec cs
    | _ => jsNumberDec cs

/-- Model of `parseFloat(s)`: skip leading whitespace, then parse the
longest prefix that is a signed `Infinity` or decimal numeral, ignoring
everything after it; NaN when no such prefix exists. -/
def jsParseFloat (s : String) : JsFloat :=
  let cs := s.toList.dropWhile (fun c => jsWhitespace c)
  let signBody : Int × List Char :=
    match cs with
    | '-' :: rest => ((-1 : Int), rest)
    | '+' :: rest => ((1 : Int), rest)
    | _ => ((1 : Int), cs)
  if signBody.2.take 8 = infinityChars then
    if signBody.1 = 1 then .posInf else .negInf
  else
    match parseDecCore signBody.2 with
    | none => .nan
    | some (d1, d2, e, _) => .finite (decimalValue signBody.1 d1 d2 e)

/-- Whether a string parses (via `parseFloat`) to a strictly positive
number — the natural reading of the claim's acceptance condition. -/
def parsesPositive (n : String) : Bool := (jsParseFloat n).pos

/-- The numeric guard of lines 131-139 on an `--interval` value token:
nonempty, passes `isNaN`, and `parseFloat` value not `<= 0`.  Because a
NaN `parseFloat` result compares false with `<= 0`, a nonempty
all-whitespace token (where `Number` is 0 but `parseFloat` is NaN)
passes the guard and is accepted as a NaN interval. -/
def acceptsInterval (n : String) : Bool :=
  if n = "" then false
  else if jsNumber n = .nan then false
  else !(jsParseFloat n).le0

/-- Result of `parseArguments`: either the process exits (modelling
`process.exit(code)`, with any lines printed to stderr) before monitoring
starts, or the scan returns the interval in minutes. -/
inductive ParseResult where
  | exited (code : Nat) (stderrLines : List String)
  | ok (intervalMinutes : JsFloat)
deriving DecidableEq

/-- Message printed for a missing or non-numeric `--interval` value. -/
def errNumeric : String := "Error: --interval requires a numeric value (minutes)"

/-- Message printed for a non-positive `--interval` value. -/
def errPositive : String := "Error: Interval must be greater than 0"

/-- The argument scan loop (lines 121-142).  `--help`/`-h` prints usage
and exits 0; `--interval`/`-i` consumes the following token: a missing or
falsy (`""`) or `isNaN` value exits 1 with `errNumeric`, a `parseFloat`
value `<= 0` exits 1 with `errPositive`, and otherwise the `parseFloat`
value replaces the interval and the loop continues past the consumed
token (`i++`); unrecognized tokens are ignored. -/
def parseLoop : List String → JsFloat → ParseResult
  | [], acc => .ok acc
  | a :: rest, acc =>
      if a = "--help" ∨ a = "-h" then .exited 0 []
      else if a = "--interval" ∨ a = "-i" then
        match rest with
        | [] => .exited 1 [errNumeric]
        | n :: rest2 =>
            if n = "" then .exited 1 [errNumeric]
            else if jsNumber n = .nan then .exited 1 [errNumeric]
            else if (jsParseFloat n).le0 then .exited 1 [errPositive]
            else parseLoop rest2 (jsParseFloat n)
      else parseLoop rest acc

/-- The function `parseArguments` (lines 117-145): scan the argument list
starting from the default interval. -/
def parseArguments (args : List String) : ParseResult :=
  parseLoop args (.finite DEFAULT_INTERVAL)

/-- Exit code of a parse result, when the process exits. -/
def exitCode : ParseResult → Option Nat
  | .exited c _ => some c
  | .ok _ => none

/-! ## Helper lemmas -/

/-- Rendering a natural number through `Int` is the natural rendering. -/
theorem toString_intCast (n : Nat) : toString ((n : Int)) = toString n := rfl

/-- The code's delta annotation, driven by the sign of the integer
difference, agrees with a case split on the natural comparisons, with the
positive case rendered through natural subtraction. -/
theorem changeText_nat_cases (a b : Nat) :
    changeText ((b : Int) - (a : Int)) =
      (if a < b then "(+" ++ toString (b - a) ++ ")"
       else if b < a then "(" ++ toString ((b : Int) - (a : Int)) ++ ")"
       else "(no change)") := by
  rcases Nat.lt_trichotomy a b with h | h | h
  · have h1 : (0 : Int) < (b : Int) - (a : Int) := by omega
    have h2 : ((b : Int) - (a : Int)) = ((b - a : Nat) : Int) := by omega
    rw [changeText, if_pos h1, if_pos h, h2, toString_intCast]
  · have h1 : ¬ ((0 : Int) < (b : Int) - (a : Int)) := by omega
    have h2 : ¬ ((b : Int) - (a : Int) < 0) := by omega
    rw [changeText, if_neg h1, if_neg h2, if_neg (by omega : ¬ a < b),
      if_neg (by omega : ¬ b < a)]
  · have h1 : ¬ ((0 : Int) < (b : Int) - (a : Int)) := by omega
    have h2 : ((b : Int) - (a : Int)) < 0 := by omega
    rw [changeText, if_neg h1, if_pos h2, if_neg (by omega : ¬ a < b), if_pos h]

/-! ## Claims about a single check cycle -/

/-- Claim C1: `previousSoldCount` is updated if and only if the cycle
completes without error — on any failure outcome the field is left
unchanged, on success it becomes the fetched metric, and a successful
check following a failed cycle computes its delta against the last
successful value. -/
theorem claim_C1 (ts : String) (prev : Option Nat) (o : CycleOutcome) :
    ((o.errorMessage).isSome = true → (checkSoldSeats ts prev o).previousSoldCount = prev)
    ∧ (∀ n, o = .success n → (checkSoldSeats ts prev o).previousSoldCount = some n)
    ∧ (∀ (ts1 ts2 ts3 : String) (a b : Nat) (e : CycleOutcome),
        (e.errorMessage).isSome = true →
        (checkSoldSeats ts3
            ((checkSoldSeats ts2
                ((checkSoldSeats ts1 prev (.success a)).previousSoldCount) e).previousSoldCount)
            (.success b)).stdout
          = [checkingLine ts3,
             "[" ++ ts3 ++ "] Sold seats: " ++ toString b ++ " "
               ++ changeText ((b : Int) - (a : Int))]) := by
  refine ⟨fun h => ?_, fun n hn => ?_, fun ts1 ts2 ts3 a b e he => ?_⟩
  · cases o <;> simp_all [checkSoldSeats, CycleOutcome.errorMessage]
  · subst hn; rfl
  · cases e <;> simp_all [checkSoldSeats, CycleOutcome.errorMessage, soldLine]

/-- Witness for C1 at concrete inputs: a timeout cycle leaves the stored
count at 3, a successful cycle stores its metric, and a success after a
failed cycle reports its delta against the last successful value. -/
theorem claim_C1_witness :
    (checkSoldSeats "t2" (some 3) CycleOutcome.requestTimeout).previousSoldCount = some 3
    ∧ (checkSoldSeats "t2" (some 3) (CycleOutcome.success 7)).previousSoldCount = some 7
    ∧ (checkSoldSeats "t3"
          ((checkSoldSeats "t2"
              ((checkSoldSeats "t1" (some 3) (.success 4)).previousSoldCount)
              CycleOutcome.requestTimeout).previousSoldCount)
          (.success 9)).stdout
        = [checkingLine "t3",
           "[" ++ "t3" ++ "] Sold seats: " ++ toString 9 ++ " "
             ++ changeText ((9 : Int) - (4 : Int))] :=
  ⟨(claim_C1 "t2" (some 3) CycleOutcome.requestTimeout).1 (by decide),
   (claim_C1 "t2" (some 3) (CycleOutcome.success 7)).2.1 7 rfl,
   (claim_C1 "t3" (some 3) (CycleOutcome.success 9)).2.2 "t1" "t2" "t3" 4 9
     CycleOutcome.requestTimeout (by decide)⟩

/-- Claim C3: when a check with metric `b` follows a stored metric `a`,
the delta annotation is `(+N)` with `N = b-a` for `b > a`, `(N)` with the
native negative sign for `b < a`, and `(no change)` for `b = a`. -/
theorem claim_C3 (ts : String) (a b : Nat) :
    (checkSoldSeats ts (some a) (.success b)).stdout
      = [checkingLine ts,
         "[" ++ ts ++ "] Sold seats: " ++ toString b ++ " " ++
           (if a < b then "(+" ++ toString (b - a) ++ ")"
            else if b < a then "(" ++ toString ((b : Int) - (a : Int)) ++ ")"
            else "(no change)")] := by
  simp only [checkSoldSeats, soldLine, changeText_nat_cases]

/-- Claim C5: every failure outcome of a cycle (request error, timeout,
parse error, query-evaluation error) is caught inside the cycle: the
cycle resolves normally with the error logged to stderr and the state
unchanged, and when the monitor is running the completion of such a
failed cycle still arms the next timer — the polling loop continues. -/
theorem claim_C5 (ts : String) (prev : Option Nat) (o : CycleOutcome) (e : String)
    (he : o.errorMessage = some e) :
    (checkSoldSeats ts prev o
        = { previousSoldCount := prev
            stdout := [checkingLine ts]
            stderr := ["[" ++ ts ++ "] Error: " ++ e] })
    ∧ (∀ s : SysState, 0 < s.inFlight → s.isRunning = true →
        (step s (.checkComplete ts o)).isRunning = true
        ∧ (step s (.checkComplete ts o)).timeoutId = some s.nextId
        ∧ s.nextId ∈ (step s (.checkComplete ts o)).liveTimers) := by
  constructor
  · cases o <;> simp_all [checkSoldSeats, CycleOutcome.errorMessage]
  · intro s h1 h2
    have h0 : ¬ s.inFlight = 0 := by omega
    simp [step, h0, h2]

/-- Witness for C5: the timeout outcome at a concrete running state with
one in-flight check. -/
theorem claim_C5_witness :
    (checkSoldSeats "t" (some 3) CycleOutcome.requestTimeout
        = { previousSoldCount := some 3
            stdout := [checkingLine "t"]
            stderr := ["[" ++ "t" ++ "] Error: " ++ "Request timeout"] })
    ∧ ((step { newMonitor DEFAULT_INTERVAL with isRunning := true, inFlight := 1 }
          (.checkComplete "t" CycleOutcome.requestTimeout)).isRunning = true
        ∧ (step { newMonitor DEFAULT_INTERVAL with isRunning := true, inFlight := 1 }
            (.checkComplete "t" CycleOutcome.requestTimeout)).timeoutId
            = some { newMonitor DEFAULT_INTERVAL with isRunning := true, inFlight := 1 }.nextId
        ∧ { newMonitor DEFAULT_INTERVAL with isRunning := true, inFlight := 1 }.nextId
            ∈ (step { newMonitor DEFAULT_INTERVAL with isRunning := true, inFlight := 1 }
                (.checkComplete "t" CycleOutcome.requestTimeout)).liveTimers) :=
  ⟨(claim_C5 "t" (some 3) CycleOutcome.requestTimeout "Request timeout" rfl).1,
   (claim_C5 "t" (some 3) CycleOutcome.requestTimeout "Request timeout" rfl).2
     { newMonitor DEFAULT_INTERVAL with isRunning := true, inFlight := 1 }
     (by decide) rfl⟩

/-- Claim C7: with no stored previous value (as right after the
constructor runs) a successful check logs the bare metric with no delta
annotation. -/
theorem claim_C7 (ts : String) (n : Nat) (m : JsNumber) :
    (newMonitor m).previousSoldCount = none
    ∧ (checkSoldSeats ts none (.success n)).stdout
        = [checkingLine ts, "[" ++ ts ++ "] Sold seats: " ++ toString n]
    ∧ (checkSoldSeats ts none (.success n)).stderr = [] :=
  ⟨rfl, rfl, rfl⟩

/-! ## Scheduler lemmas -/

/-- A fresh monitor satisfies the single-chain invariant. -/
theorem chainInv_newMonitor (m : JsNumber) : ChainInv (newMonitor m) :=
  ⟨by simp [newMonitor], by simp [newMonitor], fun _ => rfl⟩

/-- Under the single-chain invariant the live-timer list is empty or is
exactly the single timer recorded in `timeoutId`, armed while no check is
in flight. -/
theorem liveTimers_shape (s : SysState)
    (h1 : s.inFlight + s.liveTimers.length ≤ 1)
    (h2 : ∀ t ∈ s.liveTimers, s.timeoutId = some t) :
    s.liveTimers = [] ∨ ∃ t, s.liveTimers = [t] ∧ s.timeoutId = some t ∧ s.inFlight = 0 := by
  match hl : s.liveTimers with
  | [] => exact Or.inl rfl
  | [t] =>
      refine Or.inr ⟨t, rfl, h2 t (by rw [hl]; exact List.mem_singleton_self t), ?_⟩
      rw [hl] at h1; simp at h1; omega
  | a :: b :: rest => rw [hl] at h1; simp at h1; omega

/-- After `stop()` from a single-chain state, the monitor is stopped and
holds no live timer. -/
theorem stop_dead (s : SysState) (hInv : ChainInv s) :
    (step s .stopCall).isRunning = false ∧ (step s .stopCall).liveTimers = [] := by
  obtain ⟨hTok, hPtr, hStop⟩ := hInv
  by_cases hr : s.isRunning
  · rcases liveTimers_shape s hTok hPtr with hl | ⟨t, hl, hid, _⟩
    · cases ht : s.timeoutId <;> simp [step, hr, ht, hl, List.erase]
    · simp [step, hr, hid, hl, List.erase]
  · have hb : s.isRunning = false := by simpa using hr
    simp [step, hb, hStop hb]

/-- Calling `stop()` does not change the number of in-flight checks. -/
theorem stop_inFlight (s : SysState) : (step s .stopCall).inFlight = s.inFlight := by
  by_cases hr : s.isRunning
  · cases ht : s.timeoutId <;> simp [step, hr, ht]
  · have hb : s.isRunning = false := by simpa using hr
    simp [step, hb]

/-- Every event preserves the single-chain invariant, provided `start()`
is not invoked while a check is in flight. -/
theorem chainInv_step (s : SysState) (e : Event)
    (hInv : ChainInv s) (hok : okEvent s e = true) : ChainInv (step s e) := by
  obtain ⟨hTok, hPtr, hStop⟩ := hInv
  cases e with
  | startCall =>
      by_cases hr : s.isRunning
      · refine ⟨?_, ?_, ?_⟩
        · simpa [step, hr] using hTok
        · simpa [step, hr] using hPtr
        · simp [step, hr]
      · have hb : s.isRunning = false := by simpa using hr
        have h0 : s.inFlight = 0 := by
          simp [okEvent, hb] at hok
          exact hok
        have hlt : s.liveTimers = [] := hStop hb
        refine ⟨?_, ?_, ?_⟩
        · simp [step, hb, h0, hlt]
        · simpa [step, hb] using hPtr
        · simp [step, hb]
  | stopCall =>
      obtain ⟨hrun, hlt⟩ := stop_dead s ⟨hTok, hPtr, hStop⟩
      refine ⟨?_, ?_, fun _ => hlt⟩
      · rw [stop_inFlight, hlt]
        simp
        omega
      · intro t htl
        rw [hlt] at htl
        exact absurd htl (List.not_mem_nil t)
  | timerFire t =>
      by_cases hm : t ∈ s.liveTimers
      · rcases liveTimers_shape s hTok hPtr with hl | ⟨t0, hl, _, h0⟩
        · rw [hl] at hm; exact absurd hm (List.not_mem_nil t)
        · have ht0 : t = t0 := by rw [hl] at hm; simpa using hm
          have hrun : s.isRunning = true := by
            by_contra hc
            have hb : s.isRunning = false := by simpa using hc
            rw [hStop hb] at hl
            exact absurd hl (by simp)
          subst ht0
          refine ⟨?_, ?_, ?_⟩
          · simp [step, hm, hl, h0, List.erase]
          · simp [step, hm, hl, List.erase]
          · simp [step, hm, hrun]
      · refine ⟨?_, ?_, ?_⟩ <;> simp only [step, hm, if_false]
        · exact hTok
        · exact hPtr
        · exact hStop
  | checkComplete ts o =>
      by_cases h0 : s.inFlight = 0
      · refine ⟨?_, ?_, ?_⟩ <;> simp only [step, h0, if_true]
        · omega
        · exact hPtr
        · exact hStop
      · have hlt : s.liveTimers = [] := by
          rcases liveTimers_shape s hTok hPtr with hl | ⟨t, _, _, hz⟩
          · exact hl
          · exact absurd hz h0
        have hTok1 : s.inFlight ≤ 1 := by rw [hlt] at hTok; simpa using hTok
        by_cases hr : s.isRunning
        · refine ⟨?_, ?_, ?_⟩
          · simp [step, h0, hr, hlt]
            omega
          · simp [step, h0, hr, hlt]
          · simp [step, h0, hr]
        · have hb : s.isRunning = false := by simpa using hr
          refine ⟨?_, ?_, ?_⟩
          · simp [step, h0, hb, hlt]
            omega
          · simp [step, h0, hb, hlt]
          · simp [step, h0, hb, hlt]

/-- The single-chain invariant holds along every in-discipline trace. -/
theorem chainInv_runFrom (s : SysState) (es : List Event)
    (hInv : ChainInv s) (hok : OkFrom s es = true) : ChainInv (runFrom s es) := by
  induction es generalizing s with
  | nil => exact hInv
  | cons e es ih =>
      rw [OkFrom, Bool.and_eq_true] at hok
      exact ih (step s e) (chainInv_step s e hInv hok.1) hok.2

/-- One cycle never discards a stored previous count. -/
theorem checkSoldSeats_prevSome (ts : String) (prev : Option Nat) (o : CycleOutcome)
    (h : prev.isSome = true) : (checkSoldSeats ts prev o).previousSoldCount.isSome = true := by
  cases o <;> simp_all [checkSoldSeats]

/-- No event discards a stored previous count. -/
theorem prevSome_step (s : SysState) (e : Event)
    (h : s.previousSoldCount.isSome = true) :
    (step s e).previousSoldCount.isSome = true := by
  cases e with
  | startCall => by_cases hr : s.isRunning <;> simp [step, hr, h]
  | stopCall =>
      by_cases hr : s.isRunning
      · cases ht : s.timeoutId <;> simp [step, hr, ht, h]
      · have hb : s.isRunning = false := by simpa using hr
        simp [step, hb, h]
  | timerFire t => by_cases hm : t ∈ s.liveTimers <;> simp [step, hm, h]
  | checkComplete ts o =>
      by_cases h0 : s.inFlight = 0
      · simp [step, h0, h]
      · by_cases hr : s.isRunning <;>
          simp [step, h0, hr, checkSoldSeats_prevSome ts s.previousSoldCount o h]

/-- No trace discards a stored previous count. -/
theorem prevSome_runFrom (s : SysState) (es : List Event)
    (h : s.previousSoldCount.isSome = true) :
    (runFrom s es).previousSoldCount.isSome = true := by
  induction es generalizing s with
  | nil => exact h
  | cons e es ih => exact ih (step s e) (prevSome_step s e h)

/-- A stopped monitor with no live timer spawns no check along any trace
that never calls `start()`. -/
theorem dead_no_spawn (s : SysState) (es : List Event)
    (hr : s.isRunning = false) (hl : s.liveTimers = [])
    (hns : noStartCall es = true) : spawnCount s es = 0 := by
  induction es generalizing s with
  | nil => rfl
  | cons e es ih =>
      cases e with
      | startCall => simp [noStartCall] at hns
      | stopCall =>
          have hstep : step s .stopCall = s := by simp [step, hr]
          simp only [noStartCall] at hns
          rw [spawnCount, hstep]
          simpa using ih s hr hl hns
      | timerFire t =>
          have hstep : step s (.timerFire t) = s := by simp [step, hl]
          simp only [noStartCall] at hns
          rw [spawnCount, hstep]
          simpa using ih s hr hl hns
      | checkComplete ts o =>
          simp only [noStartCall] at hns
          by_cases h0 : s.inFlight = 0
          · have hstep : step s (.checkComplete ts o) = s := by simp [step, h0]
            rw [spawnCount, hstep]
            simpa using ih s hr hl hns
          · rw [spawnCount]
            have hrun : (step s (.checkComplete ts o)).isRunning = false := by
              simp [step, h0, hr]
            have hlt : (step s (.checkComplete ts o)).liveTimers = [] := by
              simp [step, h0, hr, hl]
            have hif : (step s (.checkComplete ts o)).inFlight = s.inFlight - 1 := by
              simp [step, h0, hr]
            rw [ih (step s (.checkComplete ts o)) hrun hlt hns, hif]
            omega

/-! ## Claims about the scheduler -/

/-- Claim C2 (amended): provided `start()` is never invoked while a
check from a previous run is still in flight, every reachable state has
at most one pending timer, at most one in-flight check, and never one of
each — the next check is scheduled only after the previous one
resolves. -/
theorem claim_C2 (m : JsNumber) (es : List Event)
    (hok : OkFrom (newMonitor m) es = true) :
    (runFrom (newMonitor m) es).liveTimers.length ≤ 1
    ∧ (runFrom (newMonitor m) es).inFlight ≤ 1
    ∧ (runFrom (newMonitor m) es).inFlight
        + (runFrom (newMonitor m) es).liveTimers.length ≤ 1 := by
  obtain ⟨h1, -, -⟩ := chainInv_runFrom (newMonitor m) es (chainInv_newMonitor m) hok
  exact ⟨by omega, by omega, h1⟩

/-- Counterexample to C2 as stated: calling `start()` again after a
`stop()` that landed while the first run's initial check was still in
flight yields two overlapping in-flight checks, and after both resolve,
two pending timers at once. -/
theorem claim_C2_counterexample :
    (runFrom (newMonitor DEFAULT_INTERVAL)
        [.startCall, .stopCall, .startCall]).inFlight = 2
    ∧ (runFrom (newMonitor DEFAULT_INTERVAL)
        [.startCall, .stopCall, .startCall,
         .checkComplete "t1" (.success 3),
         .checkComplete "t2" (.success 5)]).liveTimers.length = 2 :=
  ⟨by decide, by decide⟩

/-- Witness for C2 on an in-discipline trace: start, first check
resolves, its timer fires, the second check resolves, stop. -/
theorem claim_C2_witness :
    OkFrom (newMonitor DEFAULT_INTERVAL)
        [.startCall, .checkComplete "t" (.success 3), .timerFire 0,
         .checkComplete "u" (.success 4), .stopCall] = true
    ∧ ((runFrom (newMonitor DEFAULT_INTERVAL)
          [.startCall, .checkComplete "t" (.success 3), .timerFire 0,
           .checkComplete "u" (.success 4), .stopCall]).liveTimers.length ≤ 1
       ∧ (runFrom (newMonitor DEFAULT_INTERVAL)
          [.startCall, .checkComplete "t" (.success 3), .timerFire 0,
           .checkComplete "u" (.success 4), .stopCall]).inFlight ≤ 1
       ∧ (runFrom (newMonitor DEFAULT_INTERVAL)
          [.startCall, .checkComplete "t" (.success 3), .timerFire 0,
           .checkComplete "u" (.success 4), .stopCall]).inFlight
           + (runFrom (newMonitor DEFAULT_INTERVAL)
          [.startCall, .checkComplete "t" (.success 3), .timerFire 0,
           .checkComplete "u" (.success 4), .stopCall]).liveTimers.length ≤ 1) :=
  ⟨by decide,
   claim_C2 DEFAULT_INTERVAL
     [.startCall, .checkComplete "t" (.success 3), .timerFire 0,
      .checkComplete "u" (.success 4), .stopCall] (by decide)⟩

/-- Claim C6 (amended): from any single-chain state — in particular any
state reached without calling `start()` while a check was in flight —
`stop()` leaves no live timer (the pending timer, if any, is cancelled),
and no further check starts under any subsequent events that do not call
`start()` again. -/
theorem claim_C6 (s : SysState) (es : List Event)
    (hInv : ChainInv s) (hns : noStartCall es = true) :
    (step s .stopCall).liveTimers = []
    ∧ spawnCount (step s .stopCall) es = 0 := by
  obtain ⟨hr, hl⟩ := stop_dead s hInv
  exact ⟨hl, dead_no_spawn (step s .stopCall) es hr hl hns⟩

/-- Counterexample to C6 as stated: in the double-chain run produced by
restarting during an in-flight check, the final `stop()` cancels only the
timer recorded in `timeoutId`; the other pending timer survives and its
firing starts a further check with no intervening `start()`. -/
theorem claim_C6_counterexample :
    (runFrom (newMonitor DEFAULT_INTERVAL)
        [.startCall, .stopCall, .startCall,
         .checkComplete "t1" (.success 3), .checkComplete "t2" (.success 5),
         .stopCall]).liveTimers = [0]
    ∧ (step (runFrom (newMonitor DEFAULT_INTERVAL)
        [.startCall, .stopCall, .startCall,
         .checkComplete "t1" (.success 3), .checkComplete "t2" (.success 5),
         .stopCall]) (.timerFire 0)).inFlight = 1 :=
  ⟨by decide, by decide⟩

/-- Witness for C6: a running single-chain state with one pending timer;
after `stop()` the timer is gone and firing it spawns nothing. -/
theorem claim_C6_witness :
    (step { newMonitor DEFAULT_INTERVAL with
              isRunning := true, timeoutId := some 0, liveTimers := [0],
              nextId := 1, previousSoldCount := some 3 }
        .stopCall).liveTimers = []
    ∧ spawnCount
        (step { newMonitor DEFAULT_INTERVAL with
                  isRunning := true, timeoutId := some 0, liveTimers := [0],
                  nextId := 1, previousSoldCount := some 3 }
          .stopCall)
        [.timerFire 0, .checkComplete "x" (.success 9)] = 0 :=
  claim_C6
    { newMonitor DEFAULT_INTERVAL with
        isRunning := true, timeoutId := some 0, liveTimers := [0],
        nextId := 1, previousSoldCount := some 3 }
    [.timerFire 0, .checkComplete "x" (.success 9)] (by decide) (by decide)

/-- Claim C8: `stop()` is idempotent: when not running it is a complete
no-op (no state change, no output); a second consecutive call changes
nothing further, so two calls in a row print exactly one shutdown
notice; when running, one call clears `isRunning`, clears and cancels
the recorded timer, and appends exactly one shutdown notice. -/
theorem claim_C8 (s : SysState) :
    (s.isRunning = false → step s .stopCall = s)
    ∧ step (step s .stopCall) .stopCall = step s .stopCall
    ∧ (step (step s .stopCall) .stopCall).stdout
        = s.stdout ++ (if s.isRunning then ["\n🛑 Monitor stopped"] else [])
    ∧ (s.isRunning = true →
        (step s .stopCall).isRunning = false
        ∧ (step s .stopCall).timeoutId = none
        ∧ (step s .stopCall).stdout = s.stdout ++ ["\n🛑 Monitor stopped"]
        ∧ (∀ t, s.timeoutId = some t →
            (step s .stopCall).liveTimers = s.liveTimers.erase t)
        ∧ (s.timeoutId = none → (step s .stopCall).liveTimers = s.liveTimers)) := by
  by_cases hr : s.isRunning
  · cases ht : s.timeoutId with
    | none =>
        refine ⟨by simp [hr], ?_, ?_, fun _ => ⟨?_, ?_, ?_, ?_, ?_⟩⟩ <;>
          simp [step, hr, ht]
    | some t =>
        refine ⟨by simp [hr], ?_, ?_, fun _ => ⟨?_, ?_, ?_, ?_, ?_⟩⟩ <;>
          simp [step, hr, ht]
  · have hb : s.isRunning = false := by simpa using hr
    have hstep : step s .stopCall = s := by simp [step, hb]
    refine ⟨fun _ => hstep, by rw [hstep, hstep], by rw [hstep, hstep, hb]; simp, ?_⟩
    intro hcontra
    rw [hcontra] at hb
    exact absurd hb (by simp)

/-- Witness for C8 at a concrete running state with a pending timer and
at a concrete stopped state. -/
theorem claim_C8_witness :
    (({ newMonitor DEFAULT_INTERVAL with isRunning := false } : SysState).isRunning = false
      → step { newMonitor DEFAULT_INTERVAL with isRunning := false } .stopCall
          = { newMonitor DEFAULT_INTERVAL with isRunning := false })
    ∧ ((step { newMonitor DEFAULT_INTERVAL with
                 isRunning := true, timeoutId := some 0, liveTimers := [0],
                 nextId := 1 } .stopCall).isRunning = false
       ∧ (step { newMonitor DEFAULT_INTERVAL with
                 isRunning := true, timeoutId := some 0, liveTimers := [0],
                 nextId := 1 } .stopCall).timeoutId = none
       ∧ (step { newMonitor DEFAULT_INTERVAL with
                 isRunning := true, timeoutId := some 0, liveTimers := [0],
                 nextId := 1 } .stopCall).stdout
           = ({ newMonitor DEFAULT_INTERVAL with
                 isRunning := true, timeoutId := some 0, liveTimers := [0],
                 nextId := 1 } : SysState).stdout ++ ["\n🛑 Monitor stopped"]
       ∧ (∀ t, ({ newMonitor DEFAULT_INTERVAL with
                 isRunning := true, timeoutId := some 0, liveTimers := [0],
                 nextId := 1 } : SysState).timeoutId = some t →
           (step { newMonitor DEFAULT_INTERVAL with
                 isRunning := true, timeoutId := some 0, liveTimers := [0],
                 nextId := 1 } .stopCall).liveTimers
             = ({ newMonitor DEFAULT_INTERVAL with
                 isRunning := true, timeoutId := some 0, liveTimers := [0],
                 nextId := 1 } : SysState).liveTimers.erase t)
       ∧ (({ newMonitor DEFAULT_INTERVAL with
                 isRunning := true, timeoutId := some 0, liveTimers := [0],
                 nextId := 1 } : SysState).timeoutId = none →
           (step { newMonitor DEFAULT_INTERVAL with
                 isRunning := true, timeoutId := some 0, liveTimers := [0],
                 nextId := 1 } .stopCall).liveTimers
             = ({ newMonitor DEFAULT_INTERVAL with
                 isRunning := true, timeoutId := some 0, liveTimers := [0],
                 nextId := 1 } : SysState).liveTimers)) :=
  ⟨(claim_C8 { newMonitor DEFAULT_INTERVAL with isRunning := false }).1,
   (claim_C8 { newMonitor DEFAULT_INTERVAL with
                 isRunning := true, timeoutId := some 0, liveTimers := [0],
                 nextId := 1 }).2.2.2 rfl⟩

/-- Claim C9: `start()` on an already-running monitor only prints the
informational notice: the entire state is unchanged except for that one
stdout line — no check begins, no timer is armed. -/
theorem claim_C9 (s : SysState) (hr : s.isRunning = true) :
    step s .startCall = { s with stdout := s.stdout ++ ["Monitor is already running"] } := by
  simp [step, hr]

/-- Witness for C9 at a concrete running state. -/
theorem claim_C9_witness :
    step { newMonitor DEFAULT_INTERVAL with isRunning := true, inFlight := 1 } .startCall
      = { newMonitor DEFAULT_INTERVAL with
            isRunning := true, inFlight := 1,
            stdout := ({ newMonitor DEFAULT_INTERVAL with
                          isRunning := true, inFlight := 1 } : SysState).stdout
              ++ ["Monitor is already running"] } :=
  claim_C9 { newMonitor DEFAULT_INTERVAL with isRunning := true, inFlight := 1 } rfl

/-- Claim C10: once a check has completed successfully the stored
previous count is non-null in every subsequent reachable state — no
event resets it — and every later successful check therefore logs a
delta annotation. -/
theorem claim_C10 (s : SysState) (ts : String) (n : Nat) (es : List Event)
    (h : 0 < s.inFlight) :
    (step s (.checkComplete ts (.success n))).previousSoldCount = some n
    ∧ (runFrom (step s (.checkComplete ts (.success n))) es).previousSoldCount.isSome = true
    ∧ (∀ (s2 : SysState) (ts2 : String) (m a : Nat),
        s2.previousSoldCount = some a → 0 < s2.inFlight →
        (step s2 (.checkComplete ts2 (.success m))).stdout
          = s2.stdout ++ [checkingLine ts2,
              "[" ++ ts2 ++ "] Sold seats: " ++ toString m ++ " "
                ++ changeText ((m : Int) - (a : Int))]) := by
  have h0 : ¬ s.inFlight = 0 := by omega
  have hfirst : (step s (.checkComplete ts (.success n))).previousSoldCount = some n := by
    by_cases hr : s.isRunning <;> simp [step, h0, hr, checkSoldSeats]
  refine ⟨hfirst, prevSome_runFrom _ es (by rw [hfirst]; rfl), ?_⟩
  intro s2 ts2 m a ha h2
  have h02 : ¬ s2.inFlight = 0 := by omega
  by_cases hr2 : s2.isRunning <;>
    simp [step, h02, hr2, checkSoldSeats, soldLine, ha]

/-- Witness for C10: a concrete state with one in-flight check; after
its success the count is stored, survives further events, and the next
success logs a delta. -/
theorem claim_C10_witness :
    (step { newMonitor DEFAULT_INTERVAL with isRunning := true, inFlight := 1 }
        (.checkComplete "t" (.success 3))).previousSoldCount = some 3
    ∧ (runFrom (step { newMonitor DEFAULT_INTERVAL with isRunning := true, inFlight := 1 }
        (.checkComplete "t" (.success 3)))
        [.stopCall, .startCall, .timerFire 0]).previousSoldCount.isSome = true
    ∧ (step { newMonitor DEFAULT_INTERVAL with
                isRunning := true, inFlight := 1, previousSoldCount := some 3 }
        (.checkComplete "u" (.success 5))).stdout
      = ({ newMonitor DEFAULT_INTERVAL with
                isRunning := true, inFlight := 1, previousSoldCount := some 3 } : SysState).stdout
          ++ [checkingLine "u",
              "[" ++ "u" ++ "] Sold seats: " ++ toString 5 ++ " "
                ++ changeText ((5 : Int) - (3 : Int))] :=
  ⟨(claim_C10 { newMonitor DEFAULT_INTERVAL with isRunning := true, inFlight := 1 }
      "t" 3 [.stopCall, .startCall, .timerFire 0] (by decide)).1,
   (claim_C10 { newMonitor DEFAULT_INTERVAL with isRunning := true, inFlight := 1 }
      "t" 3 [.stopCall, .startCall, .timerFire 0] (by decide)).2.1,
   (claim_C10 { newMonitor DEFAULT_INTERVAL with isRunning := true, inFlight := 1 }
      "t" 3 [.stopCall, .startCall, .timerFire 0] (by decide)).2.2
     { newMonitor DEFAULT_INTERVAL with
         isRunning := true, inFlight := 1, previousSoldCount := some 3 }
     "u" 5 3 rfl (by decide)⟩

/-! ## Argument-parsing lemmas -/

/-- Evaluating the scan at an interval flag followed by at least one more
token: the payload is examined for falsiness, `isNaN` and the
`parseFloat <= 0` test. -/
theorem parseLoop_flag_pair (flag : String)
    (hflag : flag = "--interval" ∨ flag = "-i")
    (n : String) (rest2 : List String) (acc : JsFloat) :
    parseLoop (flag :: n :: rest2) acc =
      (if n = "" then .exited 1 [errNumeric]
       else if jsNumber n = .nan then .exited 1 [errNumeric]
       else if (jsParseFloat n).le0 then .exited 1 [errPositive]
       else parseLoop rest2 (jsParseFloat n)) := by
  rcases hflag with h | h <;> subst h <;> rfl

/-- A token that is neither a help nor an interval flag is skipped. -/
theorem parseLoop_skip (a : String)
    (h1 : ¬ (a = "--help" ∨ a = "-h"))
    (h2 : ¬ (a = "--interval" ∨ a = "-i"))
    (rest : List String) (acc : JsFloat) :
    parseLoop (a :: rest) acc = parseLoop rest acc := by
  conv_lhs => rw [parseLoop.eq_def]
  simp only [if_neg h1, if_neg h2]

/-- An interval flag directly followed by a token the numeric guard
rejects exits with code 1 and an error line. -/
theorem parseLoop_flag_head (flag n : String) (post : List String) (acc : JsFloat)
    (hflag : flag = "--interval" ∨ flag = "-i")
    (hn : acceptsInterval n = false) :
    parseLoop (flag :: n :: post) acc = .exited 1 [errNumeric]
    ∨ parseLoop (flag :: n :: post) acc = .exited 1 [errPositive] := by
  rw [parseLoop_flag_pair flag hflag n post acc]
  by_cases he : n = ""
  · rw [if_pos he]
    exact Or.inl rfl
  · rw [if_neg he]
    by_cases hnan : jsNumber n = .nan
    · rw [if_pos hnan]
      exact Or.inl rfl
    · rw [if_neg hnan]
      have hle : (jsParseFloat n).le0 = true := by
        simp [acceptsInterval, he, hnan] at hn
        exact hn
      rw [if_pos hle]
      exact Or.inr rfl

/-- The scan of any argument list that contains an interval flag, with no
help token before it and a following value the numeric guard rejects,
ends in `process.exit(1)` with one error line — wherever the flag sits,
whatever valid options precede it and whatever follows. -/
theorem parseLoop_invalid (k : Nat) :
    ∀ (pre : List String), pre.length ≤ k →
    ∀ (flag n : String) (post : List String) (acc : JsFloat),
    (flag = "--interval" ∨ flag = "-i") →
    "--help" ∉ pre → "-h" ∉ pre →
    acceptsInterval n = false →
    (parseLoop (pre ++ flag :: n :: post) acc = .exited 1 [errNumeric]
     ∨ parseLoop (pre ++ flag :: n :: post) acc = .exited 1 [errPositive]) := by
  induction k with
  | zero =>
      intro pre hlen flag n post acc hflag h1 h2 hn
      have hpre : pre = [] := List.length_eq_zero.mp (Nat.le_zero.mp hlen)
      subst hpre
      simpa using parseLoop_flag_head flag n post acc hflag hn
  | succ k ih =>
      intro pre hlen flag n post acc hflag h1 h2 hn
      cases pre with
      | nil => simpa using parseLoop_flag_head flag n post acc hflag hn
      | cons a pre' =>
          have h1' : "--help" ∉ pre' := fun h => h1 (List.mem_cons_of_mem a h)
          have h2' : "-h" ∉ pre' := fun h => h2 (List.mem_cons_of_mem a h)
          have ha1 : ¬ (a = "--help" ∨ a = "-h") := by
            rintro (h | h) <;> subst h
            · exact h1 (List.mem_cons_self _ _)
            · exact h2 (List.mem_cons_self _ _)
          by_cases ha2 : a = "--interval" ∨ a = "-i"
          · cases pre' with
            | nil =>
                rw [show (a :: ([] : List String)) ++ flag :: n :: post
                    = a :: flag :: n :: post from rfl]
                rw [parseLoop_flag_pair a ha2 flag (n :: post) acc]
                have hne : ¬ flag = "" := by
                  rcases hflag with h | h <;> subst h <;> decide
                have hnan : jsNumber flag = .nan := by
                  rcases hflag with h | h <;> subst h <;> decide
                rw [if_neg hne, if_pos hnan]
                exact Or.inl rfl
            | cons p pre'' =>
                rw [show (a :: p :: pre'') ++ flag :: n :: post
                    = a :: p :: (pre'' ++ flag :: n :: post) from rfl]
                rw [parseLoop_flag_pair a ha2 p (pre'' ++ flag :: n :: post) acc]
                by_cases hp : p = ""
                · rw [if_pos hp]
                  exact Or.inl rfl
                · rw [if_neg hp]
                  by_cases hpn : jsNumber p = .nan
                  · rw [if_pos hpn]
                    exact Or.inl rfl
                  · rw [if_neg hpn]
                    by_cases hq : (jsParseFloat p).le0 = true
                    · rw [if_pos hq]
                      exact Or.inr rfl
                    · rw [if_neg hq]
                      have hlen'' : pre''.length ≤ k := by
                        simp only [List.length_cons] at hlen
                        omega
                      exact ih pre'' hlen'' flag n post (jsParseFloat p) hflag
                        (fun h => h1' (List.mem_cons_of_mem p h))
                        (fun h => h2' (List.mem_cons_of_mem p h)) hn
          · rw [List.cons_append, parseLoop_skip a ha1 ha2]
            have hlen' : pre'.length ≤ k := by
              simp only [List.length_cons] at hlen
              omega
            exact ih pre' hlen' flag n post acc hflag h1' h2' hn

/-! ## Claims about argument parsing -/

/-- Claim C4 (amended): for every argument list `pre ++ [flag, N] ++ post`
with `flag` one of `--interval`/`-i` and no help token among the
preceding arguments, if `N` fails the numeric guard of lines 131-139
(empty, `isNaN`, or `parseFloat <= 0`) the process prints an error to
the error stream and exits with status 1, so monitoring never starts;
every `N` whose `parseFloat` value exists and is not positive fails that
guard, so `0` and `-3` are rejected as non-positive and `abc` as
non-numeric, all with exit code 1, while the positive values `0.5`
(one half, a 30000 ms wait duration), `1e3`, `Infinity` and tab-padded
`0.5` are accepted; the hex literal `0x10` passes `isNaN` but
`parseFloat` reads it as 0, so it exits 1 as non-positive. -/
theorem claim_C4 :
    (∀ (pre : List String) (flag n : String) (post : List String),
      (flag = "--interval" ∨ flag = "-i") →
      "--help" ∉ pre → "-h" ∉ pre →
      acceptsInterval n = false →
      (parseArguments (pre ++ flag :: n :: post) = .exited 1 [errNumeric]
       ∨ parseArguments (pre ++ flag :: n :: post) = .exited 1 [errPositive]))
    ∧ (∀ n : String, parsesPositive n = false → jsParseFloat n ≠ .nan →
        acceptsInterval n = false)
    ∧ parseArguments ["--interval", "0"] = .exited 1 [errPositive]
    ∧ parseArguments ["--interval", "-3"] = .exited 1 [errPositive]
    ∧ parseArguments ["--interval", "abc"] = .exited 1 [errNumeric]
    ∧ parseArguments ["-i", "0"] = .exited 1 [errPositive]
    ∧ parseArguments ["--interval", "0.5"] = .ok (.finite ⟨5, 10⟩)
    ∧ parseArguments ["-i", "0.5"] = .ok (.finite ⟨5, 10⟩)
    ∧ parseArguments ["--interval", "1e3"] = .ok (.finite ⟨1000, 1⟩)
    ∧ parseArguments ["--interval", "Infinity"] = .ok .posInf
    ∧ parseArguments ["-i", "\t0.5\t"] = .ok (.finite ⟨5, 10⟩)
    ∧ parseArguments ["--interval", "0x10"] = .exited 1 [errPositive]
    ∧ JsNumber.toRat ⟨5, 10⟩ = 1 / 2
    ∧ (newMonitor ⟨5, 10⟩).intervalMs.toRat = 30000 := by
  refine ⟨?_, ?_, by decide, by decide, by decide, by decide, by decide, by decide,
    by decide, by decide, by decide, by decide, ?_, ?_⟩
  · intro pre flag n post hflag h1 h2 hn
    exact parseLoop_invalid pre.length pre le_rfl flag n post
      (.finite DEFAULT_INTERVAL) hflag h1 h2 hn
  · intro n hpos hnan
    unfold acceptsInterval
    by_cases he : n = ""
    · rw [if_pos he]
    · rw [if_neg he]
      by_cases hq : jsNumber n = .nan
      · rw [if_pos hq]
      · rw [if_neg hq]
        cases hf : jsParseFloat n with
        | nan => exact absurd hf hnan
        | posInf => simp [parsesPositive, hf, JsFloat.pos] at hpos
        | negInf => simp [JsFloat.le0]
        | finite x =>
            simp only [parsesPositive, hf, JsFloat.pos, decide_eq_false_iff_not] at hpos
            simp only [JsFloat.le0, Bool.not_eq_false', decide_eq_true_eq]
            omega
  · norm_num [JsNumber.toRat]
  · norm_num [newMonitor, JsNumber.toRat, JsNumber.mul, JsNumber.ofNat]

/-- Counterexample to C4 as stated: the list `--help --interval 0`
contains `--interval 0` with a non-positive value yet exits 0 through
the help path with no error printed; and the nonempty all-whitespace
value `" "` does not parse as a positive number (its `parseFloat` is
NaN) yet is accepted — `Number(" ")` is 0 so `isNaN` passes, and the
NaN `parseFloat` result compares false with `<= 0` — so monitoring
starts with a NaN interval instead of exiting 1. -/
theorem claim_C4_counterexample :
    parseArguments ["--help", "--interval", "0"] = .exited 0 []
    ∧ exitCode (parseArguments ["--help", "--interval", "0"]) ≠ some 1
    ∧ parsesPositive "0" = false
    ∧ parseArguments ["--interval", " "] = .ok .nan
    ∧ parsesPositive " " = false
    ∧ exitCode (parseArguments ["--interval", " "]) ≠ some 1 :=
  ⟨by decide, by decide, by decide, by decide, by decide, by decide⟩

/-- Witness for C4's universal part at the concrete list
`["--interval", "abc"]` and for its guard bridge at `"-3"`. -/
theorem claim_C4_witness :
    (parseArguments ["--interval", "abc"] = .exited 1 [errNumeric]
     ∨ parseArguments ["--interval", "abc"] = .exited 1 [errPositive])
    ∧ acceptsInterval "-3" = false :=
  ⟨claim_C4.1 [] "--interval" "abc" [] (Or.inl rfl) (by decide) (by decide) (by decide),
   claim_C4.2.1 "-3" (by decide) (by decide)⟩

end SeatMonitorApp
